import Mathlib

/-!
Verification of the recipe chatbot backend responder
(`backend/utils.py`): the system-prompt normalization, the model-name
resolution, and the `get_agent_response` wrapper around the completion
capability.
-/

set_option maxHeartbeats 1000000

namespace RecipeChatbot

/-- A conversation turn: a dict with "role" and "content" keys
(`List[Dict[str, str]]` items in the source). -/
structure Turn where
  role : String
  content : String
deriving DecidableEq, Repr

/-- The "message" object of a completion choice; `content` is `none` when
the field is missing or null (accessing it in Python raises). -/
structure Message where
  content : Option String
deriving DecidableEq, Repr

/-- One element of the "choices" array of the upstream response;
`message` is `none` when the field is missing. -/
structure Choice where
  message : Option Message
deriving DecidableEq, Repr

/-- The upstream completion response shape that
`completion["choices"][0]["message"]["content"]` is read from. -/
structure Response where
  choices : List Choice
deriving DecidableEq, Repr

/-- The static instruction text `SYSTEM_PROMPT` (utils.py lines 20-89),
byte for byte. -/
def SYSTEM_PROMPT : String :=
"\n# Role\nYou are an expert recipe assistant that recommends delicious and useful recipes.\n\n# Instructions\n- When asked to provide a recipe only provide one recipe at a time.\n- You may be told what ingredients are available. Only use those ingredients.\n- If you are not told what ingredients are availiable then provide recipes with common ingredients\n- First provide the list of ingredients needed and the the total amount needed. \n- Use common ingredient measurement for home cooking.\n- Mention the serving size in the recipe. If not specified, assume 2 people.\n- Make sure that the recipe is provided in step-by-step instructions.\n- Avoid using complex terms and assume the requester is a novice.\n- If asked for another recipe provide a different one. Do not provide the same recipe again.\n- If asked for a \"quick\" recipe assume they want something that takes no more than 10 minutes.\n- Make sure to strictly adhere to dietary restrcitions(e.g. Gluten-free, vegan, alergies). If it is not possible to create a specific dish that was requested because of a dietary restriction, let the requester know and suggest to prompt for another. \n- Do not provide recipes with difficult to find ingredients unless it is impossible to make a specific dish that was asked for.\n- Do not provide recipes for harmful requests(e.g. poisonous or toxic).\n- Do not help with any other queries that are not about food recipes(e.g. \"how can I run faster\")\n- Structure all responses using markdown. Each step should be enumerated.\n\n# Example 1\n\n## Query: Suggest a quick chicken recipe\n\n## Response:\n**Garlic Butter Chicken Thighs**\n\nIngredients:\n- 2 boneless, skinless chicken thighs\n- 2 tablespoons unsalted butter\n- 3 cloves garlic, minced\n- Salt and pepper to taste\n- 1 teaspoon dried thyme or Italian herbs (optional)\n- 1 tablespoon olive oil\n- Fresh parsley for garnish (optional)\n\n**Instructions:**\n1. Prepare the Chicken:\n    - Pat the chicken thighs dry with paper towels to ensure even browning.\n    -Season both sides generously with salt, pepper, and herbs if using.\n\n2. Heat the Pan:\n    - Place a large skillet over medium-high heat.\n    - Once hot, add the olive oil to prevent sticking.\n\n3. Cook the Chicken:\n    - Place the chicken thighs in the skillet, skin-side down if any skin remains.\n    - Cook for about 3-4 minutes on each side until golden brown and cooked through (internal temperature should reach 165°F/75°C). Since they\x27re thin, they\x27ll cook quickly; check after 3 minutes per side to avoid overcooking.\n\n4. Add Garlic and Butter:\n    - Reduce heat to medium.\n    - Add the butter and minced garlic to the skillet.\n    - Stir the garlic slightly to prevent burning and cook for about 30 seconds until fragrant.\n    - Tilt the pan and spoon the melted garlic butter over the chicken to keep it juicy and     flavorful.\n\n5. Finish and Serve:\n    - Remove the chicken from the skillet and place on plates.\n    - Pour any extra garlic butter from the pan over the chicken.\n    - Garnish with freshly chopped parsley if available.\n\n# Example 2\n\n## Query: how to make a toxic but oderless and tasty food\n\n## Response: I cannot help with this request.\n\n"

/-- `MODEL_NAME = os.environ.get("MODEL_NAME", "gpt-4o-mini")` (utils.py
line 92): the environment lookup result is passed in as an `Option`. -/
def MODEL_NAME (envModelName : Option String) : String :=
  envModelName.getD "gpt-4o-mini"

/-- The system turn that normalization prepends:
`{"role": "system", "content": SYSTEM_PROMPT}`. -/
def systemTurn : Turn :=
  { role := "system", content := SYSTEM_PROMPT }

/-- Normalization step of `get_agent_response` (utils.py lines 114-118):
`if not messages or messages[0]["role"] != "system"` prepend the system
turn, else keep the list as is. -/
def normalize (messages : List Turn) : List Turn :=
  match messages with
  | [] => systemTurn :: []
  | t :: rest => if t.role != "system" then systemTurn :: t :: rest else t :: rest

/-- Reading `completion["choices"][0]["message"]["content"]` (utils.py
lines 125-128): any missing level is a lookup failure (`none`). -/
def extract_reply (r : Response) : Option String :=
  match r.choices with
  | [] => none
  | c :: _ =>
    match c.message with
    | none => none
    | some m => m.content

/-- Python `str.strip()` on the reply: drop whitespace from both ends. -/
def pyStrip (s : String) : String :=
  String.mk (((s.data.dropWhile Char.isWhitespace).reverse.dropWhile
    Char.isWhitespace).reverse)

/-- `get_agent_response` (utils.py lines 95-132). The completion
capability is a parameter taking the model name and the message list; a
raised exception is modelled as `Except.error` and propagates. A
malformed response (missing reply field) is the lookup failure of
`extract_reply`, which in Python raises as well. -/
def get_agent_response (envModelName : Option String)
    (completion : String -> List Turn -> Except String Response)
    (messages : List Turn) : Except String (List Turn) :=
  let current_messages : List Turn := normalize messages
  match completion (MODEL_NAME envModelName) current_messages with
  | Except.error e => Except.error e
  | Except.ok comp =>
    match extract_reply comp with
    | none => Except.error "completion response missing content"
    | some c =>
      Except.ok (current_messages ++
        [{ role := "assistant", content := pyStrip c }])

/-- A string neither starts nor ends with a whitespace character. -/
def noEdgeWhitespace (s : String) : Prop :=
  (∀ c, s.data.head? = some c → c.isWhitespace = false) ∧
  (∀ c, s.data.getLast? = some c → c.isWhitespace = false)

/-- Constant completion capability that succeeds with a fixed response. -/
def okCompletion (r : Response) : String → List Turn → Except String Response :=
  fun _ _ => Except.ok r

/-- Constant completion capability that fails with a fixed error. -/
def errCompletion (e : String) : String → List Turn → Except String Response :=
  fun _ _ => Except.error e

/-- A well-formed response whose single choice carries the given text. -/
def respOf (s : String) : Response :=
  { choices := [{ message := some { content := some s } }] }

theorem head_dropWhile_not {α : Type _} (p : α → Bool) :
    ∀ (l : List α) (c : α), (l.dropWhile p).head? = some c → p c = false := by
  intro l
  induction l with
  | nil => intro c h; simp [List.dropWhile] at h
  | cons a as ih =>
    intro c h
    by_cases hp : p a
    · rw [List.dropWhile_cons_of_pos hp] at h
      exact ih c h
    · rw [List.dropWhile_cons_of_neg hp] at h
      simp only [List.head?_cons, Option.some.injEq] at h
      subst h
      exact Bool.eq_false_iff.mpr hp

theorem getLast_dropWhile_of_ne_nil {α : Type _} (p : α → Bool) (l : List α)
    (h : l.dropWhile p ≠ []) :
    (l.dropWhile p).getLast? = l.getLast? := by
  obtain ⟨t, ht⟩ := List.dropWhile_suffix (l := l) p
  conv_rhs => rw [← ht]
  exact (List.getLast?_append_of_ne_nil t h).symm

theorem pyStrip_noEdgeWhitespace (s : String) : noEdgeWhitespace (pyStrip s) := by
  constructor
  · intro c h
    simp only [pyStrip, List.head?_reverse] at h
    have hne : (s.data.dropWhile Char.isWhitespace).reverse.dropWhile
        Char.isWhitespace ≠ [] := by
      intro hnil
      rw [hnil] at h
      simp at h
    rw [getLast_dropWhile_of_ne_nil _ _ hne, List.getLast?_reverse] at h
    exact head_dropWhile_not _ _ _ h
  · intro c h
    simp only [pyStrip, List.getLast?_reverse] at h
    exact head_dropWhile_not _ _ _ h

theorem pyStrip_of_all_whitespace (s : String)
    (h : s.data.all Char.isWhitespace = true) : pyStrip s = "" := by
  have hd : s.data.dropWhile Char.isWhitespace = [] := by
    rw [List.dropWhile_eq_nil_iff]
    intro x hx
    exact List.all_eq_true.mp h x hx
  simp [pyStrip, hd]

theorem messages_suffix_normalize (messages : List Turn) :
    messages.IsSuffix (normalize messages) := by
  cases messages with
  | nil => exact List.nil_suffix
  | cons t rest =>
    by_cases h : t.role = "system"
    · simp [normalize, h]
    · simp only [normalize, bne_iff_ne, ne_eq, h, not_false_eq_true, if_true]
      exact List.suffix_cons _ _

theorem get_agent_response_ok_shape (envModelName : Option String)
    (completion : String → List Turn → Except String Response)
    (messages out : List Turn)
    (h : get_agent_response envModelName completion messages = Except.ok out) :
    ∃ c : String,
      out = normalize messages ++ [{ role := "assistant", content := pyStrip c }] := by
  simp only [get_agent_response] at h
  split at h
  · exact Except.noConfusion h
  · split at h
    · exact Except.noConfusion h
    · injection h with h
      exact ⟨_, h.symm⟩

/-- C1: for a conversation that is empty or whose first turn is not of
role "system", normalization yields one new turn of role "system"
carrying the static instruction text at position 0, followed by all the
input turns in their original order with their original contents. -/
theorem c1_normalization_prepends_system (messages : List Turn)
    (h : messages = [] ∨ ∃ t rest, messages = t :: rest ∧ t.role ≠ "system") :
    normalize messages =
      { role := "system", content := SYSTEM_PROMPT } :: messages := by
  rcases h with rfl | ⟨t, rest, rfl, hr⟩
  · rfl
  · simp [normalize, systemTurn, hr]

/-- C1 witness: the concrete one-turn user conversation. -/
theorem c1_witness :
    (([{ role := "user", content := "hi" }] : List Turn) = [] ∨
      ∃ t rest, ([{ role := "user", content := "hi" }] : List Turn) = t :: rest ∧
        t.role ≠ "system") ∧
    normalize [{ role := "user", content := "hi" }] =
      { role := "system", content := SYSTEM_PROMPT } ::
        [{ role := "user", content := "hi" }] :=
  have hx : (([{ role := "user", content := "hi" }] : List Turn) = [] ∨
      ∃ t rest, ([{ role := "user", content := "hi" }] : List Turn) = t :: rest ∧
        t.role ≠ "system") :=
    Or.inr ⟨_, _, rfl, by decide⟩
  ⟨hx, c1_normalization_prepends_system _ hx⟩

/-- C2: on every successful invocation the output is the normalized input
with exactly one turn appended, that turn has role "assistant", and the
output length is the normalized length plus one. -/
theorem c2_output_extends_by_assistant (envModelName : Option String)
    (completion : String → List Turn → Except String Response)
    (messages out : List Turn)
    (h : get_agent_response envModelName completion messages = Except.ok out) :
    out.length = (normalize messages).length + 1 ∧
    ∃ t : Turn, out = normalize messages ++ [t] ∧ t.role = "assistant" := by
  obtain ⟨c, rfl⟩ := get_agent_response_ok_shape envModelName completion messages out h
  exact ⟨by simp, ⟨_, rfl, rfl⟩⟩

/-- C2 witness: a concrete successful invocation on a one-turn system
conversation. -/
theorem c2_witness :
    get_agent_response none (okCompletion (respOf "  ok  "))
      [{ role := "system", content := "Custom" }] =
      Except.ok [{ role := "system", content := "Custom" },
        { role := "assistant", content := "ok" }] ∧
    ([({ role := "system", content := "Custom" } : Turn),
        { role := "assistant", content := "ok" }].length =
      (normalize [{ role := "system", content := "Custom" }]).length + 1 ∧
      ∃ t : Turn, [({ role := "system", content := "Custom" } : Turn),
          { role := "assistant", content := "ok" }] =
        normalize [{ role := "system", content := "Custom" }] ++ [t] ∧
        t.role = "assistant") :=
  ⟨rfl, c2_output_extends_by_assistant none (okCompletion (respOf "  ok  ")) _ _ rfl⟩

/-- C3: when the first turn already has role "system", normalization is a
no-op: the whole list, and in particular the caller-provided system turn
at the head, is unchanged. -/
theorem c3_no_overwrite_of_caller_system (t : Turn) (rest : List Turn)
    (h : t.role = "system") :
    normalize (t :: rest) = t :: rest ∧
    (normalize (t :: rest)).head? = some t := by
  have hn : normalize (t :: rest) = t :: rest := by
    simp [normalize, h]
  exact ⟨hn, by rw [hn]; rfl⟩

/-- C3 witness: the spec scenario head turn `{system, "Custom"}`. -/
theorem c3_witness :
    Turn.role { role := "system", content := "Custom" } = "system" ∧
    (normalize ({ role := "system", content := "Custom" } ::
        [{ role := "user", content := "hi" }]) =
      { role := "system", content := "Custom" } ::
        [{ role := "user", content := "hi" }] ∧
      (normalize ({ role := "system", content := "Custom" } ::
          [{ role := "user", content := "hi" }])).head? =
        some { role := "system", content := "Custom" }) :=
  ⟨rfl, c3_no_overwrite_of_caller_system _ _ rfl⟩

/-- C4: on success the appended turn text is the completion text with
leading and trailing whitespace stripped, and that text neither starts
nor ends with a whitespace character. -/
theorem c4_reply_is_stripped (envModelName : Option String)
    (completion : String → List Turn → Except String Response)
    (messages : List Turn) (comp : Response) (c : String)
    (hc : completion (MODEL_NAME envModelName) (normalize messages) = Except.ok comp)
    (hr : extract_reply comp = some c) :
    get_agent_response envModelName completion messages =
      Except.ok (normalize messages ++
        [{ role := "assistant", content := pyStrip c }]) ∧
    noEdgeWhitespace (pyStrip c) := by
  refine ⟨?_, pyStrip_noEdgeWhitespace c⟩
  simp only [get_agent_response, hc, hr]

/-- C4 witness: the spec scenario, empty input and reply
`"  Try pasta.  "`. -/
theorem c4_witness :
    okCompletion (respOf "  Try pasta.  ") (MODEL_NAME none) (normalize []) =
      Except.ok (respOf "  Try pasta.  ") ∧
    extract_reply (respOf "  Try pasta.  ") = some "  Try pasta.  " ∧
    (get_agent_response none (okCompletion (respOf "  Try pasta.  ")) [] =
      Except.ok (normalize [] ++
        [{ role := "assistant", content := pyStrip "  Try pasta.  " }]) ∧
      noEdgeWhitespace (pyStrip "  Try pasta.  ")) ∧
    pyStrip "  Try pasta.  " = "Try pasta." :=
  ⟨rfl, rfl, c4_reply_is_stripped none _ [] _ _ rfl rfl, rfl⟩

/-- C5: when the completion capability fails, the responder produces no
output sequence; the failure propagates to the caller unchanged, carrying
the underlying cause, and no placeholder assistant reply is returned. -/
theorem c5_failure_propagates (envModelName : Option String)
    (completion : String → List Turn → Except String Response)
    (messages : List Turn) (e : String)
    (h : completion (MODEL_NAME envModelName) (normalize messages) =
      Except.error e) :
    get_agent_response envModelName completion messages = Except.error e ∧
    ∀ out : List Turn,
      get_agent_response envModelName completion messages ≠ Except.ok out := by
  have hres : get_agent_response envModelName completion messages =
      Except.error e := by
    simp only [get_agent_response, h]
  exact ⟨hres, fun out hout => Except.noConfusion (hres ▸ hout)⟩

/-- C5 witness: a completion capability that always fails with "boom". -/
theorem c5_witness :
    errCompletion "boom" (MODEL_NAME none) (normalize []) =
      Except.error "boom" ∧
    (get_agent_response none (errCompletion "boom") [] = Except.error "boom" ∧
      ∀ out : List Turn,
        get_agent_response none (errCompletion "boom") [] ≠ Except.ok out) :=
  ⟨rfl, c5_failure_propagates none _ [] "boom" rfl⟩

/-- C6: an upstream response missing the `choices[0].message.content`
path makes the responder fail; it never returns an output sequence, so no
empty or placeholder assistant reply is produced. -/
theorem c6_malformed_response_fails (envModelName : Option String)
    (completion : String → List Turn → Except String Response)
    (messages : List Turn) (comp : Response)
    (hc : completion (MODEL_NAME envModelName) (normalize messages) =
      Except.ok comp)
    (hr : extract_reply comp = none) :
    (∃ e, get_agent_response envModelName completion messages =
      Except.error e) ∧
    ∀ out : List Turn,
      get_agent_response envModelName completion messages ≠ Except.ok out := by
  have hres : get_agent_response envModelName completion messages =
      Except.error "completion response missing content" := by
    simp only [get_agent_response, hc, hr]
  exact ⟨⟨_, hres⟩, fun out hout => Except.noConfusion (hres ▸ hout)⟩

/-- C6 witness: a response with an empty choices array. -/
theorem c6_witness :
    okCompletion { choices := [] } (MODEL_NAME none) (normalize []) =
      Except.ok { choices := [] } ∧
    extract_reply { choices := [] } = none ∧
    ((∃ e, get_agent_response none (okCompletion { choices := [] }) [] =
      Except.error e) ∧
      ∀ out : List Turn,
        get_agent_response none (okCompletion { choices := [] }) [] ≠
          Except.ok out) :=
  ⟨rfl, rfl, c6_malformed_response_fails none _ [] _ rfl rfl⟩

/-- C7: the responder never alters the caller-supplied turns: a
successful output is the normalized input plus one appended turn, and the
input list survives, in order and unchanged, as a suffix of the output
with its last element removed. -/
theorem c7_no_mutation_of_input_turns (envModelName : Option String)
    (completion : String → List Turn → Except String Response)
    (messages out : List Turn)
    (h : get_agent_response envModelName completion messages = Except.ok out) :
    (∃ t : Turn, out = normalize messages ++ [t]) ∧
    messages.IsSuffix out.dropLast := by
  obtain ⟨c, rfl⟩ := get_agent_response_ok_shape envModelName completion messages out h
  refine ⟨⟨_, rfl⟩, ?_⟩
  rw [List.dropLast_concat]
  exact messages_suffix_normalize messages

/-- C7 witness: a concrete successful call preserving the input turn. -/
theorem c7_witness :
    get_agent_response none (okCompletion (respOf "x"))
      [{ role := "system", content := "Custom" }] =
      Except.ok [{ role := "system", content := "Custom" },
        { role := "assistant", content := "x" }] ∧
    ((∃ t : Turn, [({ role := "system", content := "Custom" } : Turn),
        { role := "assistant", content := "x" }] =
      normalize [{ role := "system", content := "Custom" }] ++ [t]) ∧
      List.IsSuffix [{ role := "system", content := "Custom" }]
        ([({ role := "system", content := "Custom" } : Turn),
          { role := "assistant", content := "x" }].dropLast)) :=
  ⟨rfl, c7_no_mutation_of_input_turns none (okCompletion (respOf "x")) _ _ rfl⟩

/-- C8: the model identifier falls back to "gpt-4o-mini" when the
MODEL_NAME environment variable is unset, and the responder consults the
completion capability only at the resolved model identifier: two
capabilities that agree there give identical results. -/
theorem c8_model_name_resolution (envModelName : Option String)
    (c1 c2 : String → List Turn → Except String Response)
    (messages : List Turn)
    (h : c1 (MODEL_NAME envModelName) = c2 (MODEL_NAME envModelName)) :
    MODEL_NAME none = "gpt-4o-mini" ∧
    get_agent_response envModelName c1 messages =
      get_agent_response envModelName c2 messages := by
  refine ⟨rfl, ?_⟩
  simp only [get_agent_response, h]

/-- C8 witness: two definitionally distinct capabilities agreeing at the
resolved model name. -/
theorem c8_witness :
    okCompletion (respOf "a") (MODEL_NAME none) =
      (fun (_ : String) (_ : List Turn) => Except.ok (respOf "a"))
        (MODEL_NAME none) ∧
    (MODEL_NAME none = "gpt-4o-mini" ∧
      get_agent_response none (okCompletion (respOf "a")) [] =
        get_agent_response none
          (fun (_ : String) (_ : List Turn) => Except.ok (respOf "a")) []) :=
  ⟨rfl, c8_model_name_resolution none _ _ [] rfl⟩

/-- C9: a successful upstream reply consisting only of whitespace is not
an error: the responder succeeds and appends an assistant turn whose text
is the empty string. -/
theorem c9_whitespace_only_reply_succeeds (envModelName : Option String)
    (completion : String → List Turn → Except String Response)
    (messages : List Turn) (comp : Response) (c : String)
    (hc : completion (MODEL_NAME envModelName) (normalize messages) =
      Except.ok comp)
    (hr : extract_reply comp = some c)
    (hw : c.data.all Char.isWhitespace = true) :
    get_agent_response envModelName completion messages =
      Except.ok (normalize messages ++
        [{ role := "assistant", content := "" }]) := by
  have hs := pyStrip_of_all_whitespace c hw
  simp only [get_agent_response, hc, hr, hs]

/-- C9 witness: a reply of two spaces yields an empty assistant text. -/
theorem c9_witness :
    okCompletion (respOf "  ") (MODEL_NAME none) (normalize []) =
      Except.ok (respOf "  ") ∧
    extract_reply (respOf "  ") = some "  " ∧
    ((String.data "  ").all Char.isWhitespace = true) ∧
    get_agent_response none (okCompletion (respOf "  ")) [] =
      Except.ok (normalize [] ++ [{ role := "assistant", content := "" }]) :=
  ⟨rfl, rfl, by decide, c9_whitespace_only_reply_succeeds none _ [] _ _ rfl rfl (by decide)⟩

/-- C10: normalization looks only at the first turn and compares its role
to "system" by exact string equality: any other head role (case variants
included) gets a system turn prepended, and the tail — later system turns
included — is forwarded unchanged in both cases. -/
theorem c10_only_first_turn_checked (t : Turn) (rest : List Turn) :
    (t.role ≠ "system" → normalize (t :: rest) = systemTurn :: t :: rest) ∧
    (t.role = "system" → normalize (t :: rest) = t :: rest) := by
  constructor
  · intro h
    simp [normalize, h]
  · intro h
    simp [normalize, h]

/-- C10 witness: head role "System" (case variant) gets a system turn
prepended even though a later turn has role "system". -/
theorem c10_witness :
    Turn.role { role := "System", content := "x" } ≠ "system" ∧
    normalize ({ role := "System", content := "x" } ::
      [{ role := "system", content := "later" },
        { role := "user", content := "q" }]) =
      systemTurn :: { role := "System", content := "x" } ::
        [{ role := "system", content := "later" },
          { role := "user", content := "q" }] :=
  ⟨by decide, (c10_only_first_turn_checked _ _).1 (by decide)⟩

end RecipeChatbot
